import Mathlib

/-!
Shallow embedding of `src/main.py` (AI Blog Generator).

The program orchestrates calls to external generative AI services.  External
effects are modelled as an explicit trace of `Event`s; the external world
(chat completions, image generation, HTTP fetch, wall clock) is an oracle
`Env`.  A provider call site is modelled by the list of outcomes the provider
would return on successive attempts, so the indefinite retry loops of
`generate_text` and `generate_cover_image_for_title` become structural
recursion over that list: the loop returns `none` when the attempt list is
exhausted without a success (the real loop would still be running), and
`some (result, trace)` when an attempt succeeds.

Python's `str.strip()` is embedded as `pyStrip`; string truthiness
(`if not topic`, `if cover_image_path`) is embedded as comparison with `""`,
and `os.path.exists` is an oracle `fileExists : String → Bool`.

The batch loop in `worker` is `for i in range(1, 4)` in the source, i.e. the
set count is fixed at 3; it is embedded with the bound as a parameter
(`worker env topic n` iterates `i = 1..n`) and instantiated at 3 in
`start_generation`, mirroring the call site.

The source name `generate_annotation` is shortened here to `generate_annot`
(likewise the record field), purely a renaming.
-/

namespace AIBlog

/-- Outcome of one attempt of a provider call: the `except` arms of the
retry loops in `generate_text` (lines 81-91) and
`generate_cover_image_for_title` (lines 191-207) of `main.py`. -/
inductive Attempt
  | ok (content : String)
  | rateLimit
  | err (msg : String)
  deriving DecidableEq

/-- `true` on the two exception outcomes, `false` on a success. -/
def Attempt.isFail : Attempt → Bool
  | .ok _ => false
  | .rateLimit => true
  | .err _ => true

/-- Outcome of the single `requests.get` in `download_image`:
either a response with a status code and body, or a raised exception. -/
inductive FetchOutcome
  | resp (status : Nat) (content : String)
  | exc (msg : String)
  deriving DecidableEq

/-- `true` when `download_image` would take a failure path on this outcome
(non-200 status, or an exception). -/
def fetchFailed : FetchOutcome → Bool
  | .resp status _ => status != 200
  | .exc _ => true

/-- Observable effects of the program, recorded as a trace.
`log` is `append_log`, `sleep` is `time.sleep`, the three `*Call` events
record each outbound provider/network attempt, `writeFile` is the temp-file
write in `download_image`, `saveDoc` is `doc.save`, `showError`/`showInfo`
are the message boxes, `setButton` is `generate_button.config`, and
`startThread` is `threading.Thread(...).start()`. -/
inductive Event
  | log (msg : String)
  | sleep (seconds : Nat)
  | chatCall (prompt : String) (maxTokens : Nat)
  | imageCall (prompt : String)
  | fetchCall (url : String)
  | writeFile (name : String) (content : String)
  | saveDoc (filename : String)
  | showError (title : String) (msg : String)
  | showInfo (title : String) (msg : String)
  | setButton (enabled : Bool)
  | startThread
  deriving DecidableEq

/-- The external world: chat completions and image generation give the list
of outcomes of successive attempts for a given request; `fetch` is the HTTP
GET; `time` gives `int(time.time())` at the download of set `i`. -/
structure Env where
  chat : String → Nat → List Attempt
  image : String → List Attempt
  fetch : String → FetchOutcome
  time : Nat → Nat

/-- Python whitespace test for `str.strip()`. -/
def wsp (c : Char) : Bool := c.isWhitespace

/-- Drop leading whitespace (first half of `str.strip()`). -/
def dropLead (l : List Char) : List Char := l.dropWhile wsp

/-- Drop trailing whitespace (second half of `str.strip()`). -/
def dropTrail (l : List Char) : List Char := (l.reverse.dropWhile wsp).reverse

/-- `str.strip()` on a character list. -/
def pyStripL (l : List Char) : List Char := dropTrail (dropLead l)

/-- `str.strip()` on a string. -/
def pyStrip (s : String) : String := ⟨pyStripL s.data⟩

/-- Log line of the rate-limit arm of `generate_text`. -/
def textRateMsg : String := "Text generation rate limit reached. Waiting 10 seconds...\n"

/-- Log line of the generic-exception arm of `generate_text`. -/
def textErrMsg (m : String) : String :=
  "Error generating text: " ++ m ++ ". Retrying in 10 seconds...\n"

/-- Log line of the rate-limit arm of `generate_cover_image_for_title`. -/
def imageRateMsg : String := "Image generation rate limit reached. Waiting 10 seconds...\n"

/-- Log line of the generic-exception arm of `generate_cover_image_for_title`. -/
def imageErrMsg (m : String) : String :=
  "Error generating image with GPT-4o: " ++ m ++ ". Retrying in 10 seconds...\n"

/-- The log line `generate_text` emits for a given failed attempt. -/
def textFailMsg : Attempt → String
  | .ok _ => ""
  | .rateLimit => textRateMsg
  | .err m => textErrMsg m

/-- The log line the image loop emits for a given failed attempt. -/
def imageFailMsg : Attempt → String
  | .ok _ => ""
  | .rateLimit => imageRateMsg
  | .err m => imageErrMsg m

/-- The `while True` retry loop of `generate_text` (main.py lines 81-91),
over the list of attempt outcomes.  Each iteration issues a fresh
`chatCall`; on success the response content is stripped and returned, on a
failure the corresponding line is logged, the loop sleeps 10 seconds and
retries.  `none` means no attempt in the list succeeded (the real loop
would still be running). -/
def textRetryLoop (prompt : String) (maxTokens : Nat) : List Attempt → Option (String × List Event)
  | [] => none
  | .ok content :: _ => some (pyStrip content, [.chatCall prompt maxTokens])
  | .rateLimit :: rest =>
      (textRetryLoop prompt maxTokens rest).map fun r =>
        (r.1, .chatCall prompt maxTokens :: .log textRateMsg :: .sleep 10 :: r.2)
  | .err m :: rest =>
      (textRetryLoop prompt maxTokens rest).map fun r =>
        (r.1, .chatCall prompt maxTokens :: .log (textErrMsg m) :: .sleep 10 :: r.2)

/-- `generate_text`: runs the retry loop on the oracle's attempt list for
this request. -/
def generate_text (env : Env) (prompt : String) (maxTokens : Nat) : Option (String × List Event) :=
  textRetryLoop prompt maxTokens (env.chat prompt maxTokens)

/-- The prompt built by `generate_blog_title`. -/
def titlePrompt (topic : String) (set_no : Nat) : String :=
  "Please generate an attractive blog title for the following topic: \x27" ++ topic ++
  "\x27. This is for result set " ++ toString set_no ++
  ", so ensure it is unique and creative. Requirements: short, creative, and captivating."

/-- The prompt built by `generate_blog_content`. -/
def contentPrompt (topic : String) (set_no : Nat) : String :=
  "Write an engaging English blog post about \x27" ++ topic ++ "\x27 for result set " ++
  toString set_no ++
  " that includes an introduction, a main body, and a conclusion. The post should be between 500 to 800 words, logically structured, and include personal opinions. Ensure it is uniquely different from other sets."

/-- The prompt built by `generate_annotation` in the source. -/
def annotPrompt (topic : String) (title : String) (set_no : Nat) : String :=
  "Given the blog title \x27" ++ title ++ "\x27 for the topic \x27" ++ topic ++
  "\x27, please provide a one-sentence annotation describing the unique creative features of this blog result (Set " ++
  toString set_no ++ ")."

/-- The prompt built by `generate_cover_image_for_title`. -/
def coverPrompt (title : String) (set_no : Nat) : String :=
  "Generate a 1024x1024 cover image with a simple, elegant background pattern. In the center, display the following text in large, bold letters: \x27" ++
  title ++ "\x27. This is for variant " ++ toString set_no ++
  "; vary the background style (different colors or patterns) but ensure the displayed text is exactly the given title."

/-- `generate_blog_title` (max_tokens=50). -/
def generate_blog_title (env : Env) (topic : String) (set_no : Nat) : Option (String × List Event) :=
  generate_text env (titlePrompt topic set_no) 50

/-- `generate_blog_content` (max_tokens=1500). -/
def generate_blog_content (env : Env) (topic : String) (set_no : Nat) : Option (String × List Event) :=
  generate_text env (contentPrompt topic set_no) 1500

/-- `generate_annotation` in the source (max_tokens=50). -/
def generate_annot (env : Env) (topic : String) (title : String) (set_no : Nat) : Option (String × List Event) :=
  generate_text env (annotPrompt topic title set_no) 50

/-- The `while True` retry loop of `generate_cover_image_for_title`
(main.py lines 191-207).  On success the URL from the response is returned
as-is (no strip). -/
def imageRetryLoop (prompt : String) : List Attempt → Option (String × List Event)
  | [] => none
  | .ok url :: _ => some (url, [.imageCall prompt])
  | .rateLimit :: rest =>
      (imageRetryLoop prompt rest).map fun r =>
        (r.1, .imageCall prompt :: .log imageRateMsg :: .sleep 10 :: r.2)
  | .err m :: rest =>
      (imageRetryLoop prompt rest).map fun r =>
        (r.1, .imageCall prompt :: .log (imageErrMsg m) :: .sleep 10 :: r.2)

/-- `generate_cover_image_for_title`. -/
def generate_cover_image_for_title (env : Env) (title : String) (set_no : Nat) : Option (String × List Event) :=
  imageRetryLoop (coverPrompt title set_no) (env.image (coverPrompt title set_no))

/-- The temp filename `download_image` writes:
`f"temp_cover_image_set_{int(time.time())}.jpg"`. -/
def tempName (now : Nat) : String := "temp_cover_image_set_" ++ toString now ++ ".jpg"

/-- `download_image` (main.py lines 225-237): a single `requests.get` with
no retry.  Status 200 writes the body to a timestamp-named file and returns
that path; any other status or an exception logs one line and returns `""`. -/
def download_image (fetch : String → FetchOutcome) (now : Nat) (url : String) : String × List Event :=
  match fetch url with
  | .resp status content =>
      if status = 200 then
        (tempName now, [.fetchCall url, .writeFile (tempName now) content])
      else
        ("", [.fetchCall url,
              .log ("Failed to download image, status code: " ++ toString status ++ "\n")])
  | .exc m => ("", [.fetchCall url, .log ("Error downloading image: " ++ m ++ "\n")])

/-- One result set, as appended to `results` in `worker`.  The dict in the
source has keys `title`, `content`, `cover_image_path`, `annotation`
(here `annot`); `setIndex` additionally records the loop index `i` the
record was built with, which the source keeps implicitly as the position
in the `results` list. -/
structure ResultRecord where
  setIndex : Nat
  title : String
  content : String
  cover_image_path : String
  annot : String
  deriving DecidableEq

/-- Log banner at the top of each loop iteration of `worker`. -/
def setHeader (i : Nat) : String := "\n----- Generating Set " ++ toString i ++ " -----\n"

/-- The `worker` log line for a failed cover-image download of set `i`. -/
def dlFailLog (i : Nat) : String := "[Set " ++ toString i ++ "] Cover image download failed.\n"

/-- One iteration of the `for i in range(1, 4)` loop body of `worker`
(main.py lines 297-327): title, content, cover image (from the generated
title), download, annotation (from the generated title), assembled into a
`ResultRecord`, together with the trace of the iteration. -/
def buildSet (env : Env) (topic : String) (i : Nat) : Option (ResultRecord × List Event) :=
  match generate_blog_title env topic i with
  | none => none
  | some (title, e1) =>
    match generate_blog_content env topic i with
    | none => none
    | some (content, e2) =>
      match generate_cover_image_for_title env title i with
      | none => none
      | some (image_url, e3) =>
        match generate_annot env topic title i with
        | none => none
        | some (annot, e5) =>
          some ({ setIndex := i, title := title, content := content,
                  cover_image_path := (download_image env.fetch (env.time i) image_url).1,
                  annot := annot },
            Event.log (setHeader i) ::
            e1 ++ Event.log ("[Set " ++ toString i ++ "] Title: " ++ title ++ "\n") ::
            e2 ++ Event.log ("[Set " ++ toString i ++ "] Content generated.\n") ::
            e3 ++ Event.log ("[Set " ++ toString i ++ "] Cover image URL: " ++ image_url ++ "\n") ::
            (download_image env.fetch (env.time i) image_url).2 ++
            Event.log (if (download_image env.fetch (env.time i) image_url).1 = "" then
                dlFailLog i
              else
                "[Set " ++ toString i ++ "] Cover image downloaded: " ++
                (download_image env.fetch (env.time i) image_url).1 ++ "\n") ::
            e5 ++ [Event.log ("[Set " ++ toString i ++ "] Annotation: " ++ annot ++ "\n")])

/-- The `for` loop of `worker` over the given list of set indices,
accumulating records in order and sleeping 2 seconds after each set. -/
def runSets (env : Env) (topic : String) : List Nat → Option (List ResultRecord × List Event)
  | [] => some ([], [])
  | i :: rest =>
    match buildSet env topic i with
    | none => none
    | some (r, e) =>
      match runSets env topic rest with
      | none => none
      | some (rs, es) => some (r :: rs, e ++ Event.sleep 2 :: es)

/-- Default output filename of `save_blog_to_word_multiple`. -/
def docFilename : String := "generated_blog.docx"

/-- `worker` (main.py lines 295-333) with the set count as a parameter `n`
(the source calls it with `range(1, 4)`, i.e. `n = 3`): runs the sets in
order, saves the document, logs completion, shows the success box and
re-enables the button. -/
def worker (env : Env) (topic : String) (n : Nat) : Option (List ResultRecord × List Event) :=
  match runSets env topic (List.range' 1 n) with
  | none => none
  | some (rs, es) =>
    some (rs, es ++
      [Event.saveDoc docFilename,
       Event.log ("Blog results have been saved to " ++ docFilename ++ "\n"),
       Event.log "All blog results generated and saved.\n",
       Event.showInfo "Success" "Blog results generated and saved successfully!",
       Event.setButton true])

/-- Result of `start_generation`: a validation failure with its trace, a
started run whose worker never finished, or a completed run with the full
trace (validation, button, thread start, worker). -/
inductive RunOutcome
  | invalid (events : List Event)
  | incomplete
  | completed (records : List ResultRecord) (events : List Event)
  deriving DecidableEq

/-- `start_generation` after the topic has been read and stripped from the
entry widget: the empty check, button disabling, start log, and the worker
thread (main.py lines 287-335). -/
def start_generation_core (env : Env) (topic : String) : RunOutcome :=
  if topic = "" then
    RunOutcome.invalid [Event.showError "Input Error" "Blog topic cannot be empty!"]
  else
    match worker env topic 3 with
    | none => RunOutcome.incomplete
    | some (rs, evs) =>
      RunOutcome.completed rs
        (Event.setButton false ::
         Event.log ("Starting generation for topic: " ++ topic ++ "\n") ::
         Event.startThread :: evs)

/-- `start_generation`: `topic = topic_entry.get().strip()` then the core. -/
def start_generation (env : Env) (raw : String) : RunOutcome :=
  start_generation_core env (pyStrip raw)

/-- `True` unless the outcome is the input-validation failure: the batch
(button disabling, worker thread) was started. -/
def startsBatch : RunOutcome → Prop
  | .invalid _ => False
  | .incomplete => True
  | .completed _ _ => True

/-- Elements of the Word document built by `save_blog_to_word_multiple`. -/
inductive DocElem
  | heading (text : String) (level : Nat)
  | paragraph (text : String)
  | picture (path : String) (widthInches : Nat)
  deriving DecidableEq

/-- The document elements one result set contributes in the loop of
`save_blog_to_word_multiple` (main.py lines 255-262): heading with title
and annotation, the content paragraph, the cover image guarded by
`if result["cover_image_path"] and os.path.exists(...)`, and the separator
paragraph. -/
def docForSet (fileExists : String → Bool) (i : Nat) (r : ResultRecord) : List DocElem :=
  DocElem.heading ("Set " ++ toString i ++ ": " ++ r.title ++ " - " ++ r.annot) 2 ::
  DocElem.paragraph r.content ::
  ((if r.cover_image_path != "" && fileExists r.cover_image_path then
      [DocElem.heading "Cover Image:" 3, DocElem.picture r.cover_image_path 6]
    else []) ++ [DocElem.paragraph ""])

/-- `enumerate(sets, start=1)` over the result sets. -/
def docBody (fileExists : String → Bool) : Nat → List ResultRecord → List DocElem
  | _, [] => []
  | i, r :: rest => docForSet fileExists i r ++ docBody fileExists (i + 1) rest

/-- The document built by `save_blog_to_word_multiple`. -/
def save_blog_to_word_multiple (fileExists : String → Bool) (sets : List ResultRecord) : List DocElem :=
  DocElem.heading "Generated Blog Results" 1 :: docBody fileExists 1 sets

/-- The provider/network calls a trace contains. -/
inductive Call
  | chat (prompt : String) (maxTokens : Nat)
  | image (prompt : String)
  | fetch (url : String)
  deriving DecidableEq

/-- The call an event records, if any. -/
def callOf : Event → Option Call
  | .chatCall p mt => some (.chat p mt)
  | .imageCall p => some (.image p)
  | .fetchCall u => some (.fetch u)
  | _ => none

/-- The sequence of outbound provider/network calls in a trace. -/
def callsOf (evs : List Event) : List Call := evs.filterMap callOf

/-- Number of `log` events in a trace. -/
def numLogs (evs : List Event) : Nat :=
  evs.countP fun e => match e with | .log _ => true | _ => false

/-- Number of `fetchCall` events in a trace. -/
def numFetchCalls (evs : List Event) : Nat :=
  evs.countP fun e => match e with | .fetchCall _ => true | _ => false

/-- `true` when the trace touches the start button in no way. -/
def buttonFree (evs : List Event) : Bool :=
  evs.all fun e => match e with | .setButton _ => false | _ => true

/-- A string with no leading and no trailing whitespace. -/
def noEdgeWS (s : String) : Prop :=
  (∀ c, s.data.head? = some c → c.isWhitespace = false) ∧
  (∀ c, s.data.getLast? = some c → c.isWhitespace = false)

/-- Stub oracle where every call succeeds on the first attempt. -/
def stubEnv : Env where
  chat := fun _ _ => [Attempt.ok " T "]
  image := fun _ => [Attempt.ok "http://x/1.png"]
  fetch := fun _ => FetchOutcome.resp 200 "bytes"
  time := fun _ => 7

/-- Stub oracle where generation succeeds but every download raises. -/
def stubEnvFail : Env where
  chat := fun _ _ => [Attempt.ok "T"]
  image := fun _ => [Attempt.ok "u"]
  fetch := fun _ => FetchOutcome.exc "netdown"
  time := fun _ => 7

/-- The completed-run records of an outcome (empty otherwise). -/
def outRecords : RunOutcome → List ResultRecord
  | .completed rs _ => rs
  | _ => []

/-- The completed-run trace of an outcome (empty otherwise). -/
def outEvents : RunOutcome → List Event
  | .completed _ evs => evs
  | _ => []

/-- Concrete run of `worker` on `stubEnv`. -/
def stubRun : List ResultRecord × List Event := (worker stubEnv "Remote Work" 3).getD ([], [])

/-- Concrete run of `worker` on `stubEnvFail`. -/
def stubRunFail : List ResultRecord × List Event := (worker stubEnvFail "t" 1).getD ([], [])

/-- Concrete run of one set pipeline on `stubEnv`. -/
def stubBuildPair : ResultRecord × List Event :=
  (buildSet stubEnv "t" 1).getD
    ({ setIndex := 0, title := "", content := "", cover_image_path := "", annot := "" }, [])

/-- Concrete run of `generate_blog_title` on `stubEnv`. -/
def stubTitlePair : String × List Event := (generate_blog_title stubEnv "t" 1).getD ("", [])

/-- Concrete outcome of `start_generation` on `stubEnv`. -/
def stubOutcome : RunOutcome := start_generation stubEnv "Remote Work"

/-! ### Properties of `pyStrip` -/

theorem head_dropWhile_false {α : Type} {p : α → Bool} :
    ∀ (l : List α) (c : α), (l.dropWhile p).head? = some c → p c = false := by
  intro l
  induction l with
  | nil => intro c h; simp [List.dropWhile] at h
  | cons a t ih =>
    intro c h
    rw [List.dropWhile_cons] at h
    cases hpa : p a with
    | true => rw [if_pos (by simp [hpa])] at h; exact ih c h
    | false =>
      rw [if_neg (by simp [hpa])] at h
      simp at h
      rw [← h]
      exact hpa

theorem eq_dropTrail_append (m : List Char) :
    m = dropTrail m ++ (m.reverse.takeWhile wsp).reverse := by
  have h2 : m.reverse.reverse = (m.reverse.takeWhile wsp ++ m.reverse.dropWhile wsp).reverse := by
    rw [List.takeWhile_append_dropWhile wsp m.reverse]
  rw [List.reverse_reverse] at h2
  rw [List.reverse_append] at h2
  exact h2

theorem head_append_left {α : Type} (l t : List α) (c : α) (h : l.head? = some c) :
    (l ++ t).head? = some c := by
  cases l with
  | nil => simp at h
  | cons a l' => simpa using h

theorem pyStripL_head (l : List Char) (c : Char) (h : (pyStripL l).head? = some c) :
    c.isWhitespace = false := by
  have hd : (dropLead l).head? = some c := by
    have := eq_dropTrail_append (dropLead l)
    rw [this]
    exact head_append_left _ _ _ h
  exact head_dropWhile_false l c hd

theorem pyStripL_getLast (l : List Char) (c : Char) (h : (pyStripL l).getLast? = some c) :
    c.isWhitespace = false := by
  have hg : (pyStripL l).getLast? = ((dropLead l).reverse.dropWhile wsp).head? := by
    unfold pyStripL dropTrail
    exact List.getLast?_reverse _
  rw [hg] at h
  exact head_dropWhile_false _ c h

theorem pyStripL_eq_nil_iff (l : List Char) :
    pyStripL l = [] ↔ ∀ c ∈ l, c.isWhitespace = true := by
  unfold pyStripL dropTrail dropLead
  rw [List.reverse_eq_nil_iff, List.dropWhile_eq_nil_iff]
  constructor
  · intro h c hc
    have hsplit := List.takeWhile_append_dropWhile wsp l
    rw [← hsplit, List.mem_append] at hc
    cases hc with
    | inl hm => exact List.mem_takeWhile_imp hm
    | inr hm => exact h c (by simpa using hm)
  · intro h c hc
    rw [List.mem_reverse] at hc
    exact h c ((List.dropWhile_sublist wsp).mem hc)

theorem dropWhile_append_of_all {α : Type} {p : α → Bool} :
    ∀ (a : List α) (x : List α), (∀ c ∈ a, p c = true) → (a ++ x).dropWhile p = x.dropWhile p := by
  intro a
  induction a with
  | nil => intro x _; rfl
  | cons c t ih =>
    intro x h
    rw [List.cons_append, List.dropWhile_cons, if_pos (by simp [h c (by simp)])]
    exact ih x fun d hd => h d (by simp [hd])

theorem dropTrail_append_of_all (m b : List Char) (hb : ∀ c ∈ b, wsp c = true) :
    dropTrail (m ++ b) = dropTrail m := by
  unfold dropTrail
  rw [List.reverse_append, dropWhile_append_of_all b.reverse m.reverse
    (fun c hc => hb c (by simpa using hc))]

theorem dropWhile_append_of_ne_nil {α : Type} {p : α → Bool} :
    ∀ (x b : List α), x.dropWhile p ≠ [] → (x ++ b).dropWhile p = x.dropWhile p ++ b := by
  intro x
  induction x with
  | nil => intro b h; simp [List.dropWhile] at h
  | cons a t ih =>
    intro b h
    rw [List.dropWhile_cons] at h
    rw [List.cons_append, List.dropWhile_cons, List.dropWhile_cons]
    cases hpa : p a with
    | true =>
      rw [if_pos (by simp [hpa])]
      rw [if_pos (by simp [hpa])] at h ⊢
      exact ih b h
    | false =>
      rw [if_neg (by simp [hpa]), if_neg (by simp [hpa]), List.cons_append]

theorem pyStripL_pad (a x b : List Char)
    (ha : ∀ c ∈ a, wsp c = true) (hb : ∀ c ∈ b, wsp c = true) :
    pyStripL (a ++ x ++ b) = pyStripL x := by
  unfold pyStripL
  have h1 : dropLead (a ++ x ++ b) = dropLead (x ++ b) := by
    unfold dropLead
    rw [List.append_assoc]
    exact dropWhile_append_of_all a (x ++ b) ha
  rw [h1]
  unfold dropLead
  cases hx : x.dropWhile wsp with
  | nil =>
    have hbnil : b.dropWhile wsp = [] := List.dropWhile_eq_nil_iff.mpr hb
    have hxb : (x ++ b).dropWhile wsp = [] := by
      rw [List.dropWhile_eq_nil_iff]
      intro c hc
      rw [List.mem_append] at hc
      cases hc with
      | inl hm =>
        have hxall := (List.dropWhile_eq_nil_iff.mp hx)
        exact hxall c hm
      | inr hm => exact hb c hm
    rw [hxb]
  | cons c t =>
    rw [dropWhile_append_of_ne_nil x b (by rw [hx]; simp), hx]
    exact dropTrail_append_of_all _ b hb

theorem data_append (s t : String) : (s ++ t).data = s.data ++ t.data := rfl

theorem pyStrip_eq_empty_iff (s : String) :
    pyStrip s = "" ↔ ∀ c ∈ s.data, c.isWhitespace = true := by
  unfold pyStrip
  rw [show ("" : String) = ⟨[]⟩ from rfl]
  rw [String.ext_iff]
  exact pyStripL_eq_nil_iff s.data

theorem pyStrip_pad (a x b : String)
    (ha : ∀ c ∈ a.data, c.isWhitespace = true) (hb : ∀ c ∈ b.data, c.isWhitespace = true) :
    pyStrip (a ++ x ++ b) = pyStrip x := by
  unfold pyStrip
  rw [String.ext_iff]
  show pyStripL (a ++ x ++ b).data = pyStripL x.data
  rw [data_append, data_append]
  exact pyStripL_pad a.data x.data b.data ha hb

/-! ### Properties of the retry loops -/

theorem textRetryLoop_spec (prompt : String) (maxTokens : Nat) :
    ∀ (fails : List Attempt) (content : String) (rest : List Attempt),
      (∀ a ∈ fails, a.isFail = true) →
      textRetryLoop prompt maxTokens (fails ++ Attempt.ok content :: rest) =
        some (pyStrip content,
          (fails.flatMap fun a =>
            [Event.chatCall prompt maxTokens, Event.log (textFailMsg a), Event.sleep 10]) ++
          [Event.chatCall prompt maxTokens]) := by
  intro fails
  induction fails with
  | nil => intro content rest _; rfl
  | cons a t ih =>
    intro content rest h
    have ht : ∀ x ∈ t, x.isFail = true := fun x hx => h x (List.mem_cons_of_mem a hx)
    cases a with
    | ok c =>
      have := h _ (List.mem_cons_self _ _)
      simp [Attempt.isFail] at this
    | rateLimit =>
      rw [List.cons_append]
      simp only [textRetryLoop]
      rw [ih content rest ht]
      simp [textFailMsg, List.flatMap_cons, List.cons_append, List.append_assoc]
    | err m =>
      rw [List.cons_append]
      simp only [textRetryLoop]
      rw [ih content rest ht]
      simp [textFailMsg, List.flatMap_cons, List.cons_append, List.append_assoc]

theorem imageRetryLoop_spec (prompt : String) :
    ∀ (fails : List Attempt) (url : String) (rest : List Attempt),
      (∀ a ∈ fails, a.isFail = true) →
      imageRetryLoop prompt (fails ++ Attempt.ok url :: rest) =
        some (url,
          (fails.flatMap fun a =>
            [Event.imageCall prompt, Event.log (imageFailMsg a), Event.sleep 10]) ++
          [Event.imageCall prompt]) := by
  intro fails
  induction fails with
  | nil => intro url rest _; rfl
  | cons a t ih =>
    intro url rest h
    have ht : ∀ x ∈ t, x.isFail = true := fun x hx => h x (List.mem_cons_of_mem a hx)
    cases a with
    | ok c =>
      have := h _ (List.mem_cons_self _ _)
      simp [Attempt.isFail] at this
    | rateLimit =>
      rw [List.cons_append]
      simp only [imageRetryLoop]
      rw [ih url rest ht]
      simp [imageFailMsg, List.flatMap_cons, List.cons_append, List.append_assoc]
    | err m =>
      rw [List.cons_append]
      simp only [imageRetryLoop]
      rw [ih url rest ht]
      simp [imageFailMsg, List.flatMap_cons, List.cons_append, List.append_assoc]

theorem callsOf_cons_chat (p : String) (mt : Nat) (t : List Event) :
    callsOf (Event.chatCall p mt :: t) = Call.chat p mt :: callsOf t := by
  simp [callsOf, List.filterMap_cons, callOf]

theorem callsOf_cons_image (p : String) (t : List Event) :
    callsOf (Event.imageCall p :: t) = Call.image p :: callsOf t := by
  simp [callsOf, List.filterMap_cons, callOf]

theorem callsOf_cons_log (m : String) (t : List Event) :
    callsOf (Event.log m :: t) = callsOf t := by
  simp [callsOf, List.filterMap_cons, callOf]

theorem callsOf_cons_sleep (n : Nat) (t : List Event) :
    callsOf (Event.sleep n :: t) = callsOf t := by
  simp [callsOf, List.filterMap_cons, callOf]

theorem textRetryLoop_calls (prompt : String) (maxTokens : Nat) :
    ∀ (atts : List Attempt) (res : String) (evs : List Event),
      textRetryLoop prompt maxTokens atts = some (res, evs) →
      ∃ k, callsOf evs = List.replicate (k + 1) (Call.chat prompt maxTokens) := by
  intro atts
  induction atts with
  | nil => intro res evs h; simp [textRetryLoop] at h
  | cons a t ih =>
    intro res evs h
    cases a with
    | ok c =>
      simp only [textRetryLoop, Option.some.injEq, Prod.mk.injEq] at h
      refine ⟨0, ?_⟩
      rw [← h.2]
      rfl
    | rateLimit =>
      simp only [textRetryLoop] at h
      cases hr : textRetryLoop prompt maxTokens t with
      | none => rw [hr] at h; simp at h
      | some r =>
        rw [hr] at h
        simp only [Option.map_some', Option.some.injEq, Prod.mk.injEq] at h
        obtain ⟨k, hk⟩ := ih r.1 r.2 (by rw [hr])
        refine ⟨k + 1, ?_⟩
        rw [← h.2, callsOf_cons_chat, callsOf_cons_log, callsOf_cons_sleep, hk]
        simp [List.replicate_succ]
    | err m =>
      simp only [textRetryLoop] at h
      cases hr : textRetryLoop prompt maxTokens t with
      | none => rw [hr] at h; simp at h
      | some r =>
        rw [hr] at h
        simp only [Option.map_some', Option.some.injEq, Prod.mk.injEq] at h
        obtain ⟨k, hk⟩ := ih r.1 r.2 (by rw [hr])
        refine ⟨k + 1, ?_⟩
        rw [← h.2, callsOf_cons_chat, callsOf_cons_log, callsOf_cons_sleep, hk]
        simp [List.replicate_succ]

theorem imageRetryLoop_calls (prompt : String) :
    ∀ (atts : List Attempt) (res : String) (evs : List Event),
      imageRetryLoop prompt atts = some (res, evs) →
      ∃ k, callsOf evs = List.replicate (k + 1) (Call.image prompt) := by
  intro atts
  induction atts with
  | nil => intro res evs h; simp [imageRetryLoop] at h
  | cons a t ih =>
    intro res evs h
    cases a with
    | ok c =>
      simp only [imageRetryLoop, Option.some.injEq, Prod.mk.injEq] at h
      refine ⟨0, ?_⟩
      rw [← h.2]
      rfl
    | rateLimit =>
      simp only [imageRetryLoop] at h
      cases hr : imageRetryLoop prompt t with
      | none => rw [hr] at h; simp at h
      | some r =>
        rw [hr] at h
        simp only [Option.map_some', Option.some.injEq, Prod.mk.injEq] at h
        obtain ⟨k, hk⟩ := ih r.1 r.2 (by rw [hr])
        refine ⟨k + 1, ?_⟩
        rw [← h.2, callsOf_cons_image, callsOf_cons_log, callsOf_cons_sleep, hk]
        simp [List.replicate_succ]
    | err m =>
      simp only [imageRetryLoop] at h
      cases hr : imageRetryLoop prompt t with
      | none => rw [hr] at h; simp at h
      | some r =>
        rw [hr] at h
        simp only [Option.map_some', Option.some.injEq, Prod.mk.injEq] at h
        obtain ⟨k, hk⟩ := ih r.1 r.2 (by rw [hr])
        refine ⟨k + 1, ?_⟩
        rw [← h.2, callsOf_cons_image, callsOf_cons_log, callsOf_cons_sleep, hk]
        simp [List.replicate_succ]

theorem textRetryLoop_strip (prompt : String) (maxTokens : Nat) :
    ∀ (atts : List Attempt) (res : String) (evs : List Event),
      textRetryLoop prompt maxTokens atts = some (res, evs) →
      ∃ c, res = pyStrip c := by
  intro atts
  induction atts with
  | nil => intro res evs h; simp [textRetryLoop] at h
  | cons a t ih =>
    intro res evs h
    cases a with
    | ok c =>
      simp only [textRetryLoop, Option.some.injEq, Prod.mk.injEq] at h
      exact ⟨c, h.1.symm⟩
    | rateLimit =>
      simp only [textRetryLoop] at h
      cases hr : textRetryLoop prompt maxTokens t with
      | none => rw [hr] at h; simp at h
      | some r =>
        rw [hr] at h
        simp only [Option.map_some', Option.some.injEq, Prod.mk.injEq] at h
        obtain ⟨c, hc⟩ := ih r.1 r.2 (by rw [hr])
        exact ⟨c, by rw [← h.1, hc]⟩
    | err m =>
      simp only [textRetryLoop] at h
      cases hr : textRetryLoop prompt maxTokens t with
      | none => rw [hr] at h; simp at h
      | some r =>
        rw [hr] at h
        simp only [Option.map_some', Option.some.injEq, Prod.mk.injEq] at h
        obtain ⟨c, hc⟩ := ih r.1 r.2 (by rw [hr])
        exact ⟨c, by rw [← h.1, hc]⟩

theorem buttonFree_cons (e : Event) (t : List Event)
    (he : (match e with | Event.setButton _ => false | _ => true) = true)
    (ht : buttonFree t = true) : buttonFree (e :: t) = true := by
  simp only [buttonFree, List.all_cons, Bool.and_eq_true]
  exact ⟨he, by simpa [buttonFree] using ht⟩

theorem buttonFree_append (a b : List Event) (ha : buttonFree a = true)
    (hb : buttonFree b = true) : buttonFree (a ++ b) = true := by
  simp only [buttonFree, List.all_append, Bool.and_eq_true]
  exact ⟨by simpa [buttonFree] using ha, by simpa [buttonFree] using hb⟩

theorem textRetryLoop_buttonFree (prompt : String) (maxTokens : Nat) :
    ∀ (atts : List Attempt) (res : String) (evs : List Event),
      textRetryLoop prompt maxTokens atts = some (res, evs) →
      buttonFree evs = true := by
  intro atts
  induction atts with
  | nil => intro res evs h; simp [textRetryLoop] at h
  | cons a t ih =>
    intro res evs h
    cases a with
    | ok c =>
      simp only [textRetryLoop, Option.some.injEq, Prod.mk.injEq] at h
      rw [← h.2]
      rfl
    | rateLimit =>
      simp only [textRetryLoop] at h
      cases hr : textRetryLoop prompt maxTokens t with
      | none => rw [hr] at h; simp at h
      | some r =>
        rw [hr] at h
        simp only [Option.map_some', Option.some.injEq, Prod.mk.injEq] at h
        have := ih r.1 r.2 (by rw [hr])
        rw [← h.2]
        exact buttonFree_cons _ _ rfl (buttonFree_cons _ _ rfl (buttonFree_cons _ _ rfl this))
    | err m =>
      simp only [textRetryLoop] at h
      cases hr : textRetryLoop prompt maxTokens t with
      | none => rw [hr] at h; simp at h
      | some r =>
        rw [hr] at h
        simp only [Option.map_some', Option.some.injEq, Prod.mk.injEq] at h
        have := ih r.1 r.2 (by rw [hr])
        rw [← h.2]
        exact buttonFree_cons _ _ rfl (buttonFree_cons _ _ rfl (buttonFree_cons _ _ rfl this))

theorem imageRetryLoop_buttonFree (prompt : String) :
    ∀ (atts : List Attempt) (res : String) (evs : List Event),
      imageRetryLoop prompt atts = some (res, evs) →
      buttonFree evs = true := by
  intro atts
  induction atts with
  | nil => intro res evs h; simp [imageRetryLoop] at h
  | cons a t ih =>
    intro res evs h
    cases a with
    | ok c =>
      simp only [imageRetryLoop, Option.some.injEq, Prod.mk.injEq] at h
      rw [← h.2]
      rfl
    | rateLimit =>
      simp only [imageRetryLoop] at h
      cases hr : imageRetryLoop prompt t with
      | none => rw [hr] at h; simp at h
      | some r =>
        rw [hr] at h
        simp only [Option.map_some', Option.some.injEq, Prod.mk.injEq] at h
        have := ih r.1 r.2 (by rw [hr])
        rw [← h.2]
        exact buttonFree_cons _ _ rfl (buttonFree_cons _ _ rfl (buttonFree_cons _ _ rfl this))
    | err m =>
      simp only [imageRetryLoop] at h
      cases hr : imageRetryLoop prompt t with
      | none => rw [hr] at h; simp at h
      | some r =>
        rw [hr] at h
        simp only [Option.map_some', Option.some.injEq, Prod.mk.injEq] at h
        have := ih r.1 r.2 (by rw [hr])
        rw [← h.2]
        exact buttonFree_cons _ _ rfl (buttonFree_cons _ _ rfl (buttonFree_cons _ _ rfl this))

/-! ### Properties of `download_image` -/

theorem download_image_calls (f : String → FetchOutcome) (now : Nat) (url : String) :
    callsOf (download_image f now url).2 = [Call.fetch url] := by
  rcases hfu : f url with ⟨status, content⟩ | m
  · by_cases hst : status = 200
    · simp [download_image, hfu, hst, callsOf, List.filterMap_cons, callOf]
    · simp [download_image, hfu, hst, callsOf, List.filterMap_cons, callOf]
  · simp [download_image, hfu, callsOf, List.filterMap_cons, callOf]

theorem download_image_fail (f : String → FetchOutcome) (now : Nat) (url : String)
    (hf : fetchFailed (f url) = true) :
    (download_image f now url).1 = "" ∧ numLogs (download_image f now url).2 = 1 ∧
      numFetchCalls (download_image f now url).2 = 1 := by
  rcases hfu : f url with ⟨status, content⟩ | m
  · rw [hfu] at hf
    have hst : ¬ status = 200 := by
      intro hc
      subst hc
      simp [fetchFailed] at hf
    refine ⟨?_, ?_, ?_⟩ <;>
      simp [download_image, hfu, hst, numLogs, numFetchCalls, List.countP_cons, List.countP_nil]
  · refine ⟨?_, ?_, ?_⟩ <;>
      simp [download_image, hfu, numLogs, numFetchCalls, List.countP_cons, List.countP_nil]

theorem download_image_ok (f : String → FetchOutcome) (now : Nat) (url : String)
    (hf : fetchFailed (f url) = false) :
    ∃ content, f url = FetchOutcome.resp 200 content ∧
      download_image f now url =
        (tempName now, [Event.fetchCall url, Event.writeFile (tempName now) content]) := by
  rcases hfu : f url with ⟨status, content⟩ | m
  · rw [hfu] at hf
    have hst : status = 200 := by simpa [fetchFailed] using hf
    subst hst
    exact ⟨content, rfl, by simp [download_image, hfu]⟩
  · rw [hfu] at hf
    simp [fetchFailed] at hf

/-! ### Inversion of the set pipeline and the batch loop -/

theorem buildSet_inv (env : Env) (topic : String) (i : Nat) (r : ResultRecord)
    (evs : List Event) (h : buildSet env topic i = some (r, evs)) :
    ∃ e1 e2 e3 image_url e5,
      generate_blog_title env topic i = some (r.title, e1) ∧
      generate_blog_content env topic i = some (r.content, e2) ∧
      generate_cover_image_for_title env r.title i = some (image_url, e3) ∧
      r.cover_image_path = (download_image env.fetch (env.time i) image_url).1 ∧
      generate_annot env topic r.title i = some (r.annot, e5) ∧
      r.setIndex = i ∧
      evs = Event.log (setHeader i) ::
        e1 ++ Event.log ("[Set " ++ toString i ++ "] Title: " ++ r.title ++ "\n") ::
        e2 ++ Event.log ("[Set " ++ toString i ++ "] Content generated.\n") ::
        e3 ++ Event.log ("[Set " ++ toString i ++ "] Cover image URL: " ++ image_url ++ "\n") ::
        (download_image env.fetch (env.time i) image_url).2 ++
        Event.log (if (download_image env.fetch (env.time i) image_url).1 = "" then dlFailLog i
          else "[Set " ++ toString i ++ "] Cover image downloaded: " ++
               (download_image env.fetch (env.time i) image_url).1 ++ "\n") ::
        e5 ++ [Event.log ("[Set " ++ toString i ++ "] Annotation: " ++ r.annot ++ "\n")] := by
  cases h1 : generate_blog_title env topic i with
  | none => simp [buildSet, h1] at h
  | some p1 =>
    obtain ⟨title, e1⟩ := p1
    cases h2 : generate_blog_content env topic i with
    | none => simp [buildSet, h1, h2] at h
    | some p2 =>
      obtain ⟨content, e2⟩ := p2
      cases h3 : generate_cover_image_for_title env title i with
      | none => simp [buildSet, h1, h2, h3] at h
      | some p3 =>
        obtain ⟨image_url, e3⟩ := p3
        cases h5 : generate_annot env topic title i with
        | none => simp [buildSet, h1, h2, h3, h5] at h
        | some p5 =>
          obtain ⟨annot, e5⟩ := p5
          simp only [buildSet, h1, h2, h3, h5, Option.some.injEq, Prod.mk.injEq] at h
          obtain ⟨hr, hevs⟩ := h
          subst hr
          exact ⟨e1, e2, e3, image_url, e5, rfl, rfl, h3, rfl, h5, rfl, hevs.symm⟩

theorem runSets_map (env : Env) (topic : String) :
    ∀ (l : List Nat) (rs : List ResultRecord) (es : List Event),
      runSets env topic l = some (rs, es) → rs.map ResultRecord.setIndex = l := by
  intro l
  induction l with
  | nil =>
    intro rs es h
    simp only [runSets, Option.some.injEq, Prod.mk.injEq] at h
    rw [← h.1]
    rfl
  | cons i rest ih =>
    intro rs es h
    cases hb : buildSet env topic i with
    | none => simp [runSets, hb] at h
    | some p =>
      obtain ⟨r, e⟩ := p
      cases hrest : runSets env topic rest with
      | none => simp [runSets, hb, hrest] at h
      | some q =>
        obtain ⟨rs2, es2⟩ := q
        simp only [runSets, hb, hrest, Option.some.injEq, Prod.mk.injEq] at h
        obtain ⟨hrs, hes⟩ := h
        rw [← hrs]
        obtain ⟨e1, e2, e3, image_url, e5, _, _, _, _, _, hidx, _⟩ :=
          buildSet_inv env topic i r e hb
        rw [List.map_cons, hidx, ih rs2 es2 hrest]

theorem runSets_mem_rec (env : Env) (topic : String) :
    ∀ (l : List Nat) (rs : List ResultRecord) (es : List Event),
      runSets env topic l = some (rs, es) →
      ∀ r ∈ rs, ∃ i e, i ∈ l ∧ buildSet env topic i = some (r, e) := by
  intro l
  induction l with
  | nil =>
    intro rs es h
    simp only [runSets, Option.some.injEq, Prod.mk.injEq] at h
    rw [← h.1]
    intro r hr
    simp at hr
  | cons i rest ih =>
    intro rs es h
    cases hb : buildSet env topic i with
    | none => simp [runSets, hb] at h
    | some p =>
      obtain ⟨r0, e⟩ := p
      cases hrest : runSets env topic rest with
      | none => simp [runSets, hb, hrest] at h
      | some q =>
        obtain ⟨rs2, es2⟩ := q
        simp only [runSets, hb, hrest, Option.some.injEq, Prod.mk.injEq] at h
        obtain ⟨hrs, hes⟩ := h
        rw [← hrs]
        intro r hr
        rw [List.mem_cons] at hr
        cases hr with
        | inl hhead =>
          subst hhead
          exact ⟨i, e, by simp, hb⟩
        | inr htail =>
          obtain ⟨j, ej, hj, hbj⟩ := ih rs2 es2 hrest r htail
          exact ⟨j, ej, by simp [hj], hbj⟩

theorem runSets_set_trace (env : Env) (topic : String) :
    ∀ (l : List Nat) (rs : List ResultRecord) (es : List Event),
      runSets env topic l = some (rs, es) →
      ∀ i ∈ l, ∃ r e, buildSet env topic i = some (r, e) ∧ ∀ x ∈ e, x ∈ es := by
  intro l
  induction l with
  | nil =>
    intro rs es h i hi
    simp at hi
  | cons j rest ih =>
    intro rs es h i hi
    cases hb : buildSet env topic j with
    | none => simp [runSets, hb] at h
    | some p =>
      obtain ⟨r0, e⟩ := p
      cases hrest : runSets env topic rest with
      | none => simp [runSets, hb, hrest] at h
      | some q =>
        obtain ⟨rs2, es2⟩ := q
        simp only [runSets, hb, hrest, Option.some.injEq, Prod.mk.injEq] at h
        obtain ⟨hrs, hes⟩ := h
        rw [List.mem_cons] at hi
        cases hi with
        | inl hhead =>
          subst hhead
          refine ⟨r0, e, hb, ?_⟩
          intro x hx
          rw [← hes, List.mem_append]
          exact Or.inl hx
        | inr htail =>
          obtain ⟨r1, e1, hb1, hsub⟩ := ih rs2 es2 hrest i htail
          refine ⟨r1, e1, hb1, ?_⟩
          intro x hx
          rw [← hes, List.mem_append]
          exact Or.inr (by simp [hsub x hx])

theorem buttonFree_iff (l : List Event) :
    buttonFree l = true ↔ ∀ b, Event.setButton b ∉ l := by
  unfold buttonFree
  rw [List.all_eq_true]
  constructor
  · intro h b hb
    have := h _ hb
    simp at this
  · intro h x hx
    cases x with
    | setButton b => exact absurd hx (h b)
    | log m => rfl
    | sleep n => rfl
    | chatCall p mt => rfl
    | imageCall p => rfl
    | fetchCall u => rfl
    | writeFile n c => rfl
    | saveDoc fn => rfl
    | showError t m => rfl
    | showInfo t m => rfl
    | startThread => rfl

theorem buildSet_buttonFree (env : Env) (topic : String) (i : Nat) (r : ResultRecord)
    (evs : List Event) (h : buildSet env topic i = some (r, evs)) :
    buttonFree evs = true := by
  obtain ⟨e1, e2, e3, image_url, e5, h1, h2, h3, hpath, h5, hidx, hevs⟩ :=
    buildSet_inv env topic i r evs h
  rw [buttonFree_iff]
  intro b
  rw [hevs]
  intro hmem
  have n1 : Event.setButton b ∉ e1 :=
    (buttonFree_iff e1).mp (textRetryLoop_buttonFree _ _ _ _ _ h1) b
  have n2 : Event.setButton b ∉ e2 :=
    (buttonFree_iff e2).mp (textRetryLoop_buttonFree _ _ _ _ _ h2) b
  have n3 : Event.setButton b ∉ e3 :=
    (buttonFree_iff e3).mp (imageRetryLoop_buttonFree _ _ _ _ h3) b
  have n5 : Event.setButton b ∉ e5 :=
    (buttonFree_iff e5).mp (textRetryLoop_buttonFree _ _ _ _ _ h5) b
  have n4 : Event.setButton b ∉ (download_image env.fetch (env.time i) image_url).2 := by
    have hc := download_image_calls env.fetch (env.time i) image_url
    rcases hfu : env.fetch image_url with ⟨status, content⟩ | m
    · by_cases hst : status = 200
      · simp [download_image, hfu, hst]
      · simp [download_image, hfu, hst]
    · simp [download_image, hfu]
  simp [List.mem_append, List.mem_cons, n1, n2, n3, n4, n5] at hmem

theorem runSets_buttonFree (env : Env) (topic : String) :
    ∀ (l : List Nat) (rs : List ResultRecord) (es : List Event),
      runSets env topic l = some (rs, es) → buttonFree es = true := by
  intro l
  induction l with
  | nil =>
    intro rs es h
    simp only [runSets, Option.some.injEq, Prod.mk.injEq] at h
    rw [← h.2]
    rfl
  | cons i rest ih =>
    intro rs es h
    cases hb : buildSet env topic i with
    | none => simp [runSets, hb] at h
    | some p =>
      obtain ⟨r0, e⟩ := p
      cases hrest : runSets env topic rest with
      | none => simp [runSets, hb, hrest] at h
      | some q =>
        obtain ⟨rs2, es2⟩ := q
        simp only [runSets, hb, hrest, Option.some.injEq, Prod.mk.injEq] at h
        rw [← h.2]
        rw [buttonFree_iff]
        intro b hmem
        have ne : Event.setButton b ∉ e :=
          (buttonFree_iff e).mp (buildSet_buttonFree env topic i r0 e hb) b
        have nrest : Event.setButton b ∉ es2 :=
          (buttonFree_iff es2).mp (ih rs2 es2 hrest) b
        simp [List.mem_append, List.mem_cons, ne, nrest] at hmem

theorem worker_inv (env : Env) (topic : String) (n : Nat) (rs : List ResultRecord)
    (evs : List Event) (h : worker env topic n = some (rs, evs)) :
    ∃ es, runSets env topic (List.range' 1 n) = some (rs, es) ∧
      evs = es ++
        [Event.saveDoc docFilename,
         Event.log ("Blog results have been saved to " ++ docFilename ++ "\n"),
         Event.log "All blog results generated and saved.\n",
         Event.showInfo "Success" "Blog results generated and saved successfully!",
         Event.setButton true] := by
  cases hr : runSets env topic (List.range' 1 n) with
  | none => simp [worker, hr] at h
  | some q =>
    obtain ⟨rs2, es2⟩ := q
    simp only [worker, hr, Option.some.injEq, Prod.mk.injEq] at h
    obtain ⟨hrs, hevs⟩ := h
    subst hrs
    exact ⟨es2, rfl, hevs.symm⟩

theorem start_generation_completed_inv (env : Env) (raw : String) (rs : List ResultRecord)
    (evs : List Event) (h : start_generation env raw = RunOutcome.completed rs evs) :
    pyStrip raw ≠ "" ∧ ∃ wevs, worker env (pyStrip raw) 3 = some (rs, wevs) ∧
      evs = Event.setButton false ::
        Event.log ("Starting generation for topic: " ++ pyStrip raw ++ "\n") ::
        Event.startThread :: wevs := by
  unfold start_generation start_generation_core at h
  by_cases he : pyStrip raw = ""
  · rw [if_pos he] at h
    exact absurd h (by simp)
  · rw [if_neg he] at h
    refine ⟨he, ?_⟩
    cases hw : worker env (pyStrip raw) 3 with
    | none => rw [hw] at h; exact absurd h (by simp)
    | some q =>
      obtain ⟨rs2, evs2⟩ := q
      rw [hw] at h
      simp only [RunOutcome.completed.injEq] at h
      exact ⟨evs2, by rw [h.1], h.2.symm⟩

/-! ### The claims -/

/-- C1: For the Retrying Client (the retry loops of `generate_text` and of the
image-generation call in `generate_cover_image_for_title`): for every operation
that fails `K` times (each failure a rate-limit or generic error) and then
succeeds, the loop returns the result of that first successful attempt (for
text, the stripped response; for image, the URL), performs exactly `K` logged
retries — one log line per failure, each followed by the fixed 10-second sleep
before the next attempt — and returns no result on a retry path. -/
theorem retrying_client_fail_then_succeed :
    (∀ (prompt : String) (maxTokens : Nat) (fails : List Attempt) (content : String)
       (rest : List Attempt), (∀ a ∈ fails, a.isFail = true) →
       textRetryLoop prompt maxTokens (fails ++ Attempt.ok content :: rest) =
         some (pyStrip content,
           (fails.flatMap fun a =>
             [Event.chatCall prompt maxTokens, Event.log (textFailMsg a), Event.sleep 10]) ++
           [Event.chatCall prompt maxTokens])) ∧
    (∀ (prompt : String) (fails : List Attempt) (url : String) (rest : List Attempt),
       (∀ a ∈ fails, a.isFail = true) →
       imageRetryLoop prompt (fails ++ Attempt.ok url :: rest) =
         some (url,
           (fails.flatMap fun a =>
             [Event.imageCall prompt, Event.log (imageFailMsg a), Event.sleep 10]) ++
           [Event.imageCall prompt])) :=
  ⟨fun prompt maxTokens fails content rest h =>
      textRetryLoop_spec prompt maxTokens fails content rest h,
   fun prompt fails url rest h => imageRetryLoop_spec prompt fails url rest h⟩

theorem retrying_client_fail_then_succeed_witness :
    textRetryLoop "p" 5 ([Attempt.rateLimit, Attempt.err "boom"] ++ Attempt.ok " hi " :: []) =
      some (pyStrip " hi ",
        (([Attempt.rateLimit, Attempt.err "boom"].flatMap fun a =>
          [Event.chatCall "p" 5, Event.log (textFailMsg a), Event.sleep 10]) ++
         [Event.chatCall "p" 5])) ∧
    imageRetryLoop "q" ([Attempt.rateLimit] ++ Attempt.ok "u" :: []) =
      some ("u",
        (([Attempt.rateLimit].flatMap fun a =>
          [Event.imageCall "q", Event.log (imageFailMsg a), Event.sleep 10]) ++
         [Event.imageCall "q"])) :=
  ⟨retrying_client_fail_then_succeed.1 "p" 5 [Attempt.rateLimit, Attempt.err "boom"] " hi " []
      (by decide),
   retrying_client_fail_then_succeed.2 "q" [Attempt.rateLimit] "u" [] (by decide)⟩

/-- C2: For every `n ≥ 1`, a successful run of the batch orchestrator `worker`
produces exactly `n` result records, one per set index, with the `i`-th record
carrying set index `i` (`map setIndex = [1, …, n]`), in index order, never
reordered or deduplicated; records are appended in the order the sets
complete.  The source instantiates `n = 3`. -/
theorem batch_orchestrator_indices (env : Env) (topic : String) (n : Nat)
    (rs : List ResultRecord) (evs : List Event) (hn : 1 ≤ n)
    (h : worker env topic n = some (rs, evs)) :
    rs.length = n ∧ rs.map ResultRecord.setIndex = List.range' 1 n := by
  obtain ⟨es, hrun, hevs⟩ := worker_inv env topic n rs evs h
  have hmap := runSets_map env topic (List.range' 1 n) rs es hrun
  constructor
  · have := congrArg List.length hmap
    simpa using this
  · exact hmap

theorem batch_orchestrator_indices_witness :
    stubRun.1.length = 3 ∧ stubRun.1.map ResultRecord.setIndex = List.range' 1 3 :=
  batch_orchestrator_indices stubEnv "Remote Work" 3 stubRun.1 stubRun.2 (by decide) rfl

/-- C3: For every topic and set index, the set pipeline executes its provider
calls in the order `generateTitle`, `generateBody`, `generateCoverImage`,
`downloadImage`, `generateAnnotation`, where the cover-image prompt and the
annotation prompt are built from the title generated in this same set
(`r.title`), not from the raw topic; each step runs at least once (the `+ 1`
in every `replicate` count), so no step is skipped even when an earlier
result such as the title is empty. -/
theorem set_pipeline_order (env : Env) (topic : String) (i : Nat) (r : ResultRecord)
    (evs : List Event) (h : buildSet env topic i = some (r, evs)) :
    ∃ k1 k2 k3 k4 url,
      callsOf evs =
        List.replicate (k1 + 1) (Call.chat (titlePrompt topic i) 50) ++
        List.replicate (k2 + 1) (Call.chat (contentPrompt topic i) 1500) ++
        List.replicate (k3 + 1) (Call.image (coverPrompt r.title i)) ++
        [Call.fetch url] ++
        List.replicate (k4 + 1) (Call.chat (annotPrompt topic r.title i) 50) := by
  obtain ⟨e1, e2, e3, image_url, e5, h1, h2, h3, hpath, h5, hidx, hevs⟩ :=
    buildSet_inv env topic i r evs h
  unfold generate_blog_title generate_text at h1
  unfold generate_blog_content generate_text at h2
  unfold generate_cover_image_for_title at h3
  unfold generate_annot generate_text at h5
  obtain ⟨k1, hc1⟩ := textRetryLoop_calls (titlePrompt topic i) 50 _ _ _ h1
  obtain ⟨k2, hc2⟩ := textRetryLoop_calls (contentPrompt topic i) 1500 _ _ _ h2
  obtain ⟨k3, hc3⟩ := imageRetryLoop_calls (coverPrompt r.title i) _ _ _ h3
  obtain ⟨k4, hc4⟩ := textRetryLoop_calls (annotPrompt topic r.title i) 50 _ _ _ h5
  have hdl := download_image_calls env.fetch (env.time i) image_url
  refine ⟨k1, k2, k3, k4, image_url, ?_⟩
  rw [hevs]
  simp only [callsOf] at hc1 hc2 hc3 hc4 hdl ⊢
  simp [List.filterMap_append, List.filterMap_cons, callOf, hc1, hc2, hc3, hc4, hdl,
    List.append_assoc]

theorem set_pipeline_order_witness :
    ∃ k1 k2 k3 k4 url,
      callsOf stubBuildPair.2 =
        List.replicate (k1 + 1) (Call.chat (titlePrompt "t" 1) 50) ++
        List.replicate (k2 + 1) (Call.chat (contentPrompt "t" 1) 1500) ++
        List.replicate (k3 + 1) (Call.image (coverPrompt stubBuildPair.1.title 1)) ++
        [Call.fetch url] ++
        List.replicate (k4 + 1) (Call.chat (annotPrompt "t" stubBuildPair.1.title 1) 50) :=
  set_pipeline_order stubEnv "t" 1 stubBuildPair.1 stubBuildPair.2 rfl

/-- C4: For every topic input that is empty or consists only of whitespace,
`start_generation` returns immediately with the validation failure surfaced to
the user (`showError` message box), making zero provider calls (its trace has
no chat, image or fetch call) and starting no batch; for every other topic the
batch starts (the outcome is not the validation failure). -/
theorem empty_topic_validation (env : Env) (raw : String) :
    ((∀ c ∈ raw.data, c.isWhitespace = true) →
      start_generation env raw =
        RunOutcome.invalid [Event.showError "Input Error" "Blog topic cannot be empty!"] ∧
      (∀ evs, start_generation env raw = RunOutcome.invalid evs → callsOf evs = [])) ∧
    ((∃ c ∈ raw.data, c.isWhitespace = false) → startsBatch (start_generation env raw)) := by
  constructor
  · intro hws
    have he : pyStrip raw = "" := (pyStrip_eq_empty_iff raw).mpr hws
    constructor
    · unfold start_generation start_generation_core
      rw [he, if_pos rfl]
    · intro evs hev
      unfold start_generation start_generation_core at hev
      rw [he, if_pos rfl] at hev
      simp only [RunOutcome.invalid.injEq] at hev
      rw [← hev]
      rfl
  · intro hex
    obtain ⟨c, hc, hcw⟩ := hex
    have he : pyStrip raw ≠ "" := by
      intro h0
      have := (pyStrip_eq_empty_iff raw).mp h0 c hc
      rw [this] at hcw
      exact Bool.noConfusion hcw
    unfold start_generation start_generation_core
    rw [if_neg he]
    cases worker env (pyStrip raw) 3 with
    | none => exact trivial
    | some q =>
      obtain ⟨rs, evs⟩ := q
      exact trivial

theorem empty_topic_validation_witness :
    (start_generation stubEnv " \t " =
      RunOutcome.invalid [Event.showError "Input Error" "Blog topic cannot be empty!"]) ∧
    startsBatch (start_generation stubEnv " Remote Work ") :=
  ⟨((empty_topic_validation stubEnv " \t ").1 (by decide)).1,
   (empty_topic_validation stubEnv " Remote Work ").2 ⟨'R', by decide, by decide⟩⟩

/-- C5: For every URL, `download_image` performs exactly one fetch attempt (its
trace contains exactly one fetch call, whatever the outcome — no retry): on a
non-success status or a network error it returns the empty path and logs
exactly one failure line; on success it returns the local timestamp-keyed path
under which the response bytes were persisted. -/
theorem download_image_single_attempt (f : String → FetchOutcome) (now : Nat) (url : String) :
    numFetchCalls (download_image f now url).2 = 1 ∧
    (fetchFailed (f url) = true →
      (download_image f now url).1 = "" ∧ numLogs (download_image f now url).2 = 1) ∧
    (fetchFailed (f url) = false →
      ∃ content, f url = FetchOutcome.resp 200 content ∧
        download_image f now url =
          (tempName now, [Event.fetchCall url, Event.writeFile (tempName now) content])) := by
  refine ⟨?_, ?_, ?_⟩
  · cases hf : fetchFailed (f url) with
    | true => exact (download_image_fail f now url hf).2.2
    | false =>
      obtain ⟨content, hfu, hd⟩ := download_image_ok f now url hf
      rw [hd]
      rfl
  · intro hf
    exact ⟨(download_image_fail f now url hf).1, (download_image_fail f now url hf).2.1⟩
  · intro hf
    exact download_image_ok f now url hf

theorem download_image_single_attempt_witness :
    numFetchCalls (download_image (fun _ => FetchOutcome.resp 404 "b") 3 "u").2 = 1 ∧
    (download_image (fun _ => FetchOutcome.resp 404 "b") 3 "u").1 = "" ∧
    numLogs (download_image (fun _ => FetchOutcome.resp 404 "b") 3 "u").2 = 1 :=
  ⟨(download_image_single_attempt (fun _ => FetchOutcome.resp 404 "b") 3 "u").1,
   (download_image_single_attempt (fun _ => FetchOutcome.resp 404 "b") 3 "u").2.1 (by decide)⟩

/-- C6: For every set in which the image download fails (here: an oracle whose
fetches all fail), the set pipeline and the batch orchestrator still continue
and record every set: the full batch of records is produced in index order,
each record has an empty `cover_image_path` while its annotation was still
generated from its title (the step after the download still ran), the failure
is surfaced only as the per-set log line, and no error is propagated. -/
theorem download_failure_is_soft (env : Env) (topic : String) (n : Nat)
    (rs : List ResultRecord) (evs : List Event)
    (hf : ∀ u, fetchFailed (env.fetch u) = true)
    (h : worker env topic n = some (rs, evs)) :
    rs.map ResultRecord.setIndex = List.range' 1 n ∧
    (∀ r ∈ rs, r.cover_image_path = "" ∧
      ∃ e, generate_annot env topic r.title r.setIndex = some (r.annot, e)) ∧
    (∀ i ∈ List.range' 1 n, Event.log (dlFailLog i) ∈ evs) := by
  obtain ⟨es, hrun, hevs⟩ := worker_inv env topic n rs evs h
  refine ⟨runSets_map env topic _ rs es hrun, ?_, ?_⟩
  · intro r hr
    obtain ⟨i, e, hi, hb⟩ := runSets_mem_rec env topic _ rs es hrun r hr
    obtain ⟨e1, e2, e3, image_url, e5, h1, h2, h3, hpath, h5, hidx, htr⟩ :=
      buildSet_inv env topic i r e hb
    have hdl := (download_image_fail env.fetch (env.time i) image_url (hf image_url)).1
    refine ⟨by rw [hpath, hdl], ?_⟩
    rw [hidx]
    exact ⟨e5, h5⟩
  · intro i hi
    obtain ⟨r, e, hb, hsub⟩ := runSets_set_trace env topic _ rs es hrun i hi
    obtain ⟨e1, e2, e3, image_url, e5, h1, h2, h3, hpath, h5, hidx, htr⟩ :=
      buildSet_inv env topic i r e hb
    have hdl := (download_image_fail env.fetch (env.time i) image_url (hf image_url)).1
    have hmem : Event.log (dlFailLog i) ∈ e := by
      rw [htr, hdl]
      simp
    rw [hevs, List.mem_append]
    exact Or.inl (hsub _ hmem)

theorem download_failure_is_soft_witness :
    stubRunFail.1.map ResultRecord.setIndex = List.range' 1 1 ∧
    (∀ r ∈ stubRunFail.1, r.cover_image_path = "" ∧
      ∃ e, generate_annot stubEnvFail "t" r.title r.setIndex = some (r.annot, e)) ∧
    (∀ i ∈ List.range' 1 1, Event.log (dlFailLog i) ∈ stubRunFail.2) :=
  download_failure_is_soft stubEnvFail "t" 1 stubRunFail.1 stubRunFail.2 (fun _ => rfl) rfl

/-- C7: For every provider response, each of the three text-generator
operations (`generate_blog_title`, `generate_blog_content`, and the source's
`generate_annotation`) returns the provider text with leading and trailing
whitespace stripped: the returned string has no leading and no trailing
whitespace character. -/
theorem text_ops_strip_whitespace (env : Env) (topic : String) (title : String) (i : Nat) :
    (∀ res evs, generate_blog_title env topic i = some (res, evs) → noEdgeWS res) ∧
    (∀ res evs, generate_blog_content env topic i = some (res, evs) → noEdgeWS res) ∧
    (∀ res evs, generate_annot env topic title i = some (res, evs) → noEdgeWS res) := by
  have key : ∀ (p : String) (mt : Nat) (atts : List Attempt) (res : String) (evs : List Event),
      textRetryLoop p mt atts = some (res, evs) → noEdgeWS res := by
    intro p mt atts res evs h
    obtain ⟨c, hc⟩ := textRetryLoop_strip p mt atts res evs h
    subst hc
    constructor
    · intro ch hch
      exact pyStripL_head c.data ch hch
    · intro ch hch
      exact pyStripL_getLast c.data ch hch
  exact ⟨fun res evs h => key _ _ _ res evs h,
         fun res evs h => key _ _ _ res evs h,
         fun res evs h => key _ _ _ res evs h⟩

theorem text_ops_strip_whitespace_witness : noEdgeWS stubTitlePair.1 :=
  (text_ops_strip_whitespace stubEnv "t" "x" 1).1 stubTitlePair.1 stubTitlePair.2 rfl

/-- C8: On a completed run, the interactive start button is disabled before
the worker begins and stays disabled for the whole run: the full trace starts
with `setButton false`, no other button event occurs until the single final
`setButton true`, and that re-enabling happens only after the batch document
was saved (`saveDoc` occurs strictly before it). -/
theorem button_disabled_during_run (env : Env) (raw : String) (rs : List ResultRecord)
    (evs : List Event) (h : start_generation env raw = RunOutcome.completed rs evs) :
    ∃ mid, evs = Event.setButton false :: mid ++ [Event.setButton true] ∧
      buttonFree mid = true ∧ Event.saveDoc docFilename ∈ mid := by
  obtain ⟨hne, wevs, hw, hevs⟩ := start_generation_completed_inv env raw rs evs h
  obtain ⟨es, hrun, hwevs⟩ := worker_inv env (pyStrip raw) 3 rs wevs hw
  refine ⟨Event.log ("Starting generation for topic: " ++ pyStrip raw ++ "\n") ::
    Event.startThread :: (es ++
      [Event.saveDoc docFilename,
       Event.log ("Blog results have been saved to " ++ docFilename ++ "\n"),
       Event.log "All blog results generated and saved.\n",
       Event.showInfo "Success" "Blog results generated and saved successfully!"]), ?_, ?_, ?_⟩
  · rw [hevs, hwevs]
    simp [List.cons_append, List.append_assoc]
  · rw [buttonFree_iff]
    intro b hmem
    have nes : Event.setButton b ∉ es :=
      (buttonFree_iff es).mp (runSets_buttonFree env (pyStrip raw) _ rs es hrun) b
    simp [List.mem_cons, List.mem_append, nes] at hmem
  · simp [List.mem_cons, List.mem_append]

theorem button_disabled_during_run_witness :
    ∃ mid, outEvents stubOutcome = Event.setButton false :: mid ++ [Event.setButton true] ∧
      buttonFree mid = true ∧ Event.saveDoc docFilename ∈ mid :=
  button_disabled_during_run stubEnv "Remote Work" (outRecords stubOutcome)
    (outEvents stubOutcome) rfl

/-- C9: The document writer embeds a set's cover image only when that record's
image path is both non-empty and names an existing file; for every record
whose path is empty or missing on disk, the picture and its "Cover Image:"
heading are silently omitted (no extra element of any kind) while the set
heading, content paragraph and separator are still produced, so assembly
succeeds for the remaining fields. -/
theorem doc_embeds_image_conditionally (fe : String → Bool) (i : Nat) (r : ResultRecord) :
    ((r.cover_image_path = "" ∨ fe r.cover_image_path = false) →
      docForSet fe i r =
        [DocElem.heading ("Set " ++ toString i ++ ": " ++ r.title ++ " - " ++ r.annot) 2,
         DocElem.paragraph r.content, DocElem.paragraph ""]) ∧
    ((r.cover_image_path ≠ "" ∧ fe r.cover_image_path = true) →
      docForSet fe i r =
        [DocElem.heading ("Set " ++ toString i ++ ": " ++ r.title ++ " - " ++ r.annot) 2,
         DocElem.paragraph r.content, DocElem.heading "Cover Image:" 3,
         DocElem.picture r.cover_image_path 6, DocElem.paragraph ""]) := by
  constructor
  · intro hcond
    unfold docForSet
    have hc : (r.cover_image_path != "" && fe r.cover_image_path) = false := by
      cases hcond with
      | inl h0 => simp [h0]
      | inr h0 => simp [h0]
    rw [hc]
    simp
  · intro hcond
    obtain ⟨hne, hex⟩ := hcond
    unfold docForSet
    have hc : (r.cover_image_path != "" && fe r.cover_image_path) = true := by
      simp [bne_iff_ne, hne, hex]
    rw [hc]
    simp

theorem doc_embeds_image_conditionally_witness :
    docForSet (fun _ => true) 1
        { setIndex := 1, title := "T", content := "B", cover_image_path := "", annot := "A" } =
      [DocElem.heading ("Set " ++ toString 1 ++ ": " ++ "T" ++ " - " ++ "A") 2,
       DocElem.paragraph "B", DocElem.paragraph ""] :=
  (doc_embeds_image_conditionally (fun _ => true) 1
      { setIndex := 1, title := "T", content := "B", cover_image_path := "", annot := "A" }).1
    (Or.inl rfl)

/-- C10: For every pair of topic inputs that differ only in leading and
trailing whitespace, the run behaves identically: the topic is stripped once
at entry, before validation and before any prompt is built, so the whole
outcome of `start_generation` — including every prompt sent to the provider
and every artifact, the provider oracle being fixed — depends only on the
stripped topic. -/
theorem topic_whitespace_insensitivity (env : Env) (core pre1 post1 pre2 post2 : String)
    (h1 : ∀ c ∈ pre1.data, c.isWhitespace = true) (h2 : ∀ c ∈ post1.data, c.isWhitespace = true)
    (h3 : ∀ c ∈ pre2.data, c.isWhitespace = true)
    (h4 : ∀ c ∈ post2.data, c.isWhitespace = true) :
    start_generation env (pre1 ++ core ++ post1) = start_generation env (pre2 ++ core ++ post2) := by
  unfold start_generation
  rw [pyStrip_pad pre1 core post1 h1 h2, pyStrip_pad pre2 core post2 h3 h4]

theorem topic_whitespace_insensitivity_witness :
    start_generation stubEnv (" " ++ "Remote Work" ++ "") =
      start_generation stubEnv ("" ++ "Remote Work" ++ "\t") :=
  topic_whitespace_insensitivity stubEnv "Remote Work" " " "" "" "\t" (by decide) (by decide)
    (by decide) (by decide)

end AIBlog
